import Mathlib

/-!
Shallow embedding of the poll-until-converged waiter corpus of this
repository: the `resource.StateRefreshFunc` status probes
(directconnect, securityhub, lex), the ECS `DescribeCapacityProviders`
pagination loop, the SES configuration-set delete/expand/flatten helpers,
and a model of the generic convergence `Wait` engine described by the
specification (the engine itself lives in the host plugin SDK, outside
this repository's sources).

Go conventions mirrored here:
  * a Go pointer `*T` is `Option T`; a nil pointer is `none`;
  * a Go `error` result is `Option GoError` (`none` = nil error);
  * a Go `interface{}` snapshot is the sum type `GoValue`;
  * `aws.StringValue` on a `*string` is `StringValue` below.
-/

/-- Go `error` values as the probes distinguish them: the sentinel
`tfresource.NotFoundError`, an AWS API error with a code and message
(matched by `tfawserr.ErrCodeEquals` / `isAWSErr`), a wrapped error
produced by `fmt.Errorf("...: %w", err)`, or any other error. -/
inductive GoError where
  | notFoundError
  | awsErr (code : String) (msg : String)
  | wrapped (msg : String) (cause : GoError)
  | other (msg : String)
deriving DecidableEq, Repr

/-- `aws.StringValue`: dereference a `*string`, nil yields `""`. -/
def StringValue : Option String → String
  | none => ""
  | some s => s

/-- `tfresource.NotFound(err)`: true iff the error is the not-found sentinel. -/
def NotFound : Option GoError → Bool
  | some .notFoundError => true
  | _ => false

/-- `tfawserr.ErrCodeEquals(err, code)`: the error is an AWS API error with
exactly the given code. -/
def ErrCodeEquals (err : Option GoError) (code : String) : Bool :=
  match err with
  | some (.awsErr c _) => c == code
  | _ => false

/-- `strings.Contains(s, sub)` on the underlying text. -/
def strContains (s sub : String) : Bool :=
  sub == "" || (s.splitOn sub).length != 1

/-- `isAWSErr(err, code, message)`: AWS API error with the given code whose
message contains `message`. -/
def isAWSErr (err : Option GoError) (code : String) (message : String) : Bool :=
  match err with
  | some (.awsErr c m) => c == code && strContains m message
  | _ => false

/- Entity snapshots returned by the finders, one structure per entity type,
with only the fields the probes read (each a `*string` in the SDK). -/

structure Connection where
  connectionState : Option String
deriving DecidableEq, Repr

structure Gateway where
  directConnectGatewayState : Option String
deriving DecidableEq, Repr

structure GatewayAssociation where
  associationState : Option String
deriving DecidableEq, Repr

structure Lag where
  lagState : Option String
deriving DecidableEq, Repr

structure AdminAccount where
  status : Option String
deriving DecidableEq, Repr

structure StandardsSubscription where
  standardsStatus : Option String
deriving DecidableEq, Repr

structure BotVersionOutput where
  status : Option String
deriving DecidableEq, Repr

structure SlotTypeMetadata where
  name : Option String
deriving DecidableEq, Repr

structure GetSlotTypeVersionsOutput where
  slotTypes : List SlotTypeMetadata
deriving DecidableEq, Repr

structure IntentMetadata where
  name : Option String
deriving DecidableEq, Repr

structure GetIntentVersionsOutput where
  intents : List IntentMetadata
deriving DecidableEq, Repr

structure GetBotAliasOutput where
  name : Option String
deriving DecidableEq, Repr

/-- A Go `interface{}` snapshot value: nil, a string, or one of the entity
snapshots above. -/
inductive GoValue where
  | nilV
  | strV (s : String)
  | connV (c : Connection)
  | gatewayV (g : Gateway)
  | gatewayAssocV (g : GatewayAssociation)
  | lagV (l : Lag)
  | adminV (a : AdminAccount)
  | stdSubV (s : StandardsSubscription)
  | botVerV (b : BotVersionOutput)
  | slotTypesV (o : GetSlotTypeVersionsOutput)
  | intentsV (o : GetIntentVersionsOutput)
  | botAliasV (o : GetBotAliasOutput)
deriving DecidableEq, Repr

/-- A probe result: the Go triple `(interface{}, string, error)`. -/
abbrev ProbeResult := GoValue × String × Option GoError

/-- Go pointer dereference `p.f` for a `*string` field. A nil receiver is a
panic in Go; the finder contract guarantees a non-nil entity whenever the
error is nil, so the `none` case is unreachable in every theorem below
(it is mapped to `none` only to keep the function total). -/
def derefField (p : Option α) (f : α → Option String) : Option String :=
  p.bind f

/- directconnect/waiter/status.go: the five probe bodies, as functions of
the finder's result pair `(output, err)`. -/

/-- `ConnectionState`: body of the closure returned by
`waiter.ConnectionState`, applied to `finder.ConnectionByID`'s result. -/
def ConnectionState (output : Option Connection) (err : Option GoError) : ProbeResult :=
  if NotFound err then (.nilV, "", none)
  else if err.isSome then (.nilV, "", err)
  else (output.elim .nilV .connV, StringValue (derefField output Connection.connectionState), none)

/-- `GatewayState`: body of the closure returned by `waiter.GatewayState`. -/
def GatewayState (output : Option Gateway) (err : Option GoError) : ProbeResult :=
  if NotFound err then (.nilV, "", none)
  else if err.isSome then (.nilV, "", err)
  else (output.elim .nilV .gatewayV, StringValue (derefField output Gateway.directConnectGatewayState), none)

/-- `GatewayAssociationState`: body of the closure returned by
`waiter.GatewayAssociationState`. -/
def GatewayAssociationState (output : Option GatewayAssociation) (err : Option GoError) : ProbeResult :=
  if NotFound err then (.nilV, "", none)
  else if err.isSome then (.nilV, "", err)
  else (output.elim .nilV .gatewayAssocV, StringValue (derefField output GatewayAssociation.associationState), none)

/-- `HostedConnectionState`: body of the closure returned by
`waiter.HostedConnectionState`. -/
def HostedConnectionState (output : Option Connection) (err : Option GoError) : ProbeResult :=
  if NotFound err then (.nilV, "", none)
  else if err.isSome then (.nilV, "", err)
  else (output.elim .nilV .connV, StringValue (derefField output Connection.connectionState), none)

/-- `LagState`: body of the closure returned by `waiter.LagState`. -/
def LagState (output : Option Lag) (err : Option GoError) : ProbeResult :=
  if NotFound err then (.nilV, "", none)
  else if err.isSome then (.nilV, "", err)
  else (output.elim .nilV .lagV, StringValue (derefField output Lag.lagState), none)

/- securityhub/status.go constants and probes. -/

def adminStatusNotFound : String := "NotFound"

def adminStatusUnknown : String := "Unknown"

def standardsStatusNotFound : String := "NotFound"

/-- `statusAdminAccountAdmin`: body of the closure, applied to
`FindAdminAccount`'s result pair. Note the Go code returns the (possibly
nil) `adminAccount` pointer itself as the snapshot in the nil case. -/
def statusAdminAccountAdmin (adminAccount : Option AdminAccount) (err : Option GoError) : ProbeResult :=
  if err.isSome then (.nilV, adminStatusUnknown, err)
  else if adminAccount.isNone then (adminAccount.elim .nilV .adminV, adminStatusNotFound, none)
  else (adminAccount.elim .nilV .adminV, StringValue (derefField adminAccount AdminAccount.status), none)

/-- `statusStandardsSubscription`: body of the closure, applied to
`FindStandardsSubscriptionByARN`'s result pair. On not-found it returns a
fake `""` snapshot and the `NotFound` status, because the INCOMPLETE
subscription status is a target for both Create and Delete. -/
def statusStandardsSubscription (output : Option StandardsSubscription) (err : Option GoError) : ProbeResult :=
  if NotFound err then (.strV "", standardsStatusNotFound, none)
  else if err.isSome then (.nilV, "", err)
  else (output.elim .nilV .stdSubV, StringValue (derefField output StandardsSubscription.standardsStatus), none)

/- lex waiter constants and probes (same source file). -/

def lexModelBuildingServiceStatusCreated : String := "CREATED"

def lexModelBuildingServiceStatusNotFound : String := "NOTFOUND"

def lexModelBuildingServiceStatusUnknown : String := "UNKNOWN"

def ErrCodeNotFoundException : String := "NotFoundException"

/-- `statusBotVersion`: body of the closure, applied to
`FindBotVersionByName`'s result pair. -/
def statusBotVersion (output : Option BotVersionOutput) (err : Option GoError) : ProbeResult :=
  if NotFound err then (.nilV, "", none)
  else if err.isSome then (.nilV, "", err)
  else (output.elim .nilV .botVerV, StringValue (derefField output BotVersionOutput.status), none)

/-- `statusLexSlotType`: body of the closure, applied to
`GetSlotTypeVersions`'s result pair. -/
def statusLexSlotType (output : Option GetSlotTypeVersionsOutput) (err : Option GoError) : ProbeResult :=
  if ErrCodeEquals err ErrCodeNotFoundException then (.nilV, lexModelBuildingServiceStatusNotFound, none)
  else if err.isSome then (.nilV, lexModelBuildingServiceStatusUnknown, err)
  else if output.isNone || (output.elim 0 (fun o => o.slotTypes.length)) == 0 then
    (.nilV, lexModelBuildingServiceStatusNotFound, none)
  else (output.elim .nilV .slotTypesV, lexModelBuildingServiceStatusCreated, none)

/-- `statusLexIntent`: body of the closure, applied to
`GetIntentVersions`'s result pair. -/
def statusLexIntent (output : Option GetIntentVersionsOutput) (err : Option GoError) : ProbeResult :=
  if ErrCodeEquals err ErrCodeNotFoundException then (.nilV, lexModelBuildingServiceStatusNotFound, none)
  else if err.isSome then (.nilV, lexModelBuildingServiceStatusUnknown, err)
  else if output.isNone || (output.elim 0 (fun o => o.intents.length)) == 0 then
    (.nilV, lexModelBuildingServiceStatusNotFound, none)
  else (output.elim .nilV .intentsV, lexModelBuildingServiceStatusCreated, none)

/-- `statusLexBotAlias`: body of the closure, applied to `GetBotAlias`'s
result pair. -/
def statusLexBotAlias (output : Option GetBotAliasOutput) (err : Option GoError) : ProbeResult :=
  if ErrCodeEquals err ErrCodeNotFoundException then (.nilV, lexModelBuildingServiceStatusNotFound, none)
  else if err.isSome then (.nilV, lexModelBuildingServiceStatusUnknown, err)
  else if output.isNone then (.nilV, lexModelBuildingServiceStatusNotFound, none)
  else (output.elim .nilV .botAliasV, lexModelBuildingServiceStatusCreated, none)

/- ------------------------------------------------------------------ -/
/- The generic convergence Wait engine.                               -/
/- ------------------------------------------------------------------ -/

/-- Modelled from the spec: the Transition Table of section 3 — the
`Wait` engine itself lives in the host plugin SDK, outside this
repository's sources. Declarative sets of status labels classified as
pending, target and failure; a status in none of them is Unknown. -/
structure TransitionTable where
  pending : List String
  target : List String
  failure : List String
deriving DecidableEq, Repr

/-- Modelled from the spec: the Wait Configuration of section 6,
discretised — time is counted in poll ticks, so `timeoutTicks` is the
number of probe invocations the timeout allows, and delays/jitter are
abstracted away. `unknownStatusTolerance` is the number of consecutive
Unknown observations tolerated before an unexpected-status error. -/
structure WaitConfig where
  timeoutTicks : Nat
  unknownStatusTolerance : Nat
deriving DecidableEq, Repr

/-- Modelled from the spec: the classification a single probe status
receives from the Transition Table, with the section 4.2 tie-break
policy — failure takes precedence over target, which takes precedence
over pending; anything else is Unknown. -/
inductive StatusClass where
  | failure
  | target
  | pending
  | unknown
deriving DecidableEq, Repr

/-- Modelled from the spec: classify one status label against the table,
checking `failure` before `target` before `pending` (section 4.2
tie-break / edge policy). -/
def classify (t : TransitionTable) (s : String) : StatusClass :=
  if s ∈ t.failure then .failure
  else if s ∈ t.target then .target
  else if s ∈ t.pending then .pending
  else .unknown

/-- Modelled from the spec: the terminal outcomes of `Wait` (section 6
error taxonomy; cancellation is omitted because no claim mentions it). -/
inductive WaitOutcome where
  | success (snapshot : GoValue)
  | targetNotReached (lastStatus : String)
  | timeout (lastStatus : String)
  | probeError (e : GoError)
  | unexpectedStatus (status : String) (occurrences : Nat)
deriving DecidableEq, Repr

/-- Modelled from the spec: the polling loop of section 4.2. `fuel` is
the remaining ticks before timeout, `i` the index of the next probe
invocation, `ucount` the consecutive Unknown observations so far, and
`lastS` the last observed status (for the timeout diagnostic). On each
tick: a probe error is a hard stop; otherwise the status is classified
with failure > target > pending precedence; pending continues polling
and resets the Unknown counter; an Unknown status is tolerated while
`ucount < tol` and otherwise stops with an unexpected-status error. -/
def waitLoop (t : TransitionTable) (tol : Nat) (probe : Nat → ProbeResult) :
    Nat → Nat → Nat → String → WaitOutcome
  | 0, _, _, lastS => .timeout lastS
  | fuel + 1, i, ucount, _ =>
    let (snap, status, err) := probe i
    match err with
    | some e => .probeError e
    | none =>
      match classify t status with
      | .failure => .targetNotReached status
      | .target => .success snap
      | .pending => waitLoop t tol probe fuel (i + 1) 0 status
      | .unknown =>
        if ucount < tol then waitLoop t tol probe fuel (i + 1) (ucount + 1) status
        else .unexpectedStatus status (ucount + 1)

/-- Modelled from the spec: `Wait(config, probe, transitionTable)` of
section 6, the single entry point, over the deterministic sequence of
results the probe would return on its successive invocations. -/
def Wait (cfg : WaitConfig) (t : TransitionTable) (probe : Nat → ProbeResult) : WaitOutcome :=
  waitLoop t cfg.unknownStatusTolerance probe cfg.timeoutTicks 0 0 ""

/- ------------------------------------------------------------------ -/
/- ecs/list_pages_gen.go: DescribeCapacityProviders pagination.        -/
/- ------------------------------------------------------------------ -/

/-- A Go `context.Context` as the pagination functions use it: either
`context.Background()` or some other context value. -/
inductive Context where
  | background
  | customCtx (id : Nat)
deriving DecidableEq, Repr

structure DescribeCapacityProvidersInput where
  nextToken : Option String
deriving DecidableEq, Repr

structure DescribeCapacityProvidersOutput where
  capacityProviders : List String
  nextToken : Option String
deriving DecidableEq, Repr

/-- Outcome of the pagination loop: normal return, the API call's error,
or fuel exhaustion (the Go loop would still be running — `diverged` is
the model's marker for executions longer than the supplied fuel). -/
inductive PagesResult (σ : Type) where
  | ok (s : σ)
  | err (e : GoError) (s : σ)
  | diverged (s : σ)
deriving DecidableEq, Repr

/-- The `for` loop body of `DescribeCapacityProvidersPagesWithContext`.
`conn` models `conn.DescribeCapacityProvidersWithContext`; the Go
callback's side effects are modelled by state passing, so `fn` takes the
state and returns the new state with the callback's boolean. `lastPage`
is `aws.StringValue(output.NextToken) == ""`; the loop breaks when the
callback returns false or the last page is reached, and otherwise
continues with `input.NextToken = output.NextToken`. -/
def describeCapacityProvidersLoop (ctx : Context)
    (conn : Context → DescribeCapacityProvidersInput → Except GoError DescribeCapacityProvidersOutput)
    (fn : σ → DescribeCapacityProvidersOutput → Bool → σ × Bool) :
    Nat → DescribeCapacityProvidersInput → σ → PagesResult σ
  | 0, _, s => .diverged s
  | fuel + 1, input, s =>
    match conn ctx input with
    | .error e => .err e s
    | .ok output =>
      let lastPage := StringValue output.nextToken == ""
      let (s1, cont) := fn s output lastPage
      if !cont || lastPage then .ok s1
      else describeCapacityProvidersLoop ctx conn fn fuel { nextToken := output.nextToken } s1

/-- `DescribeCapacityProvidersPagesWithContext(ctx, conn, input, fn)`. -/
def DescribeCapacityProvidersPagesWithContext (ctx : Context)
    (conn : Context → DescribeCapacityProvidersInput → Except GoError DescribeCapacityProvidersOutput)
    (input : DescribeCapacityProvidersInput)
    (fn : σ → DescribeCapacityProvidersOutput → Bool → σ × Bool)
    (fuel : Nat) (s : σ) : PagesResult σ :=
  describeCapacityProvidersLoop ctx conn fn fuel input s

/-- `DescribeCapacityProvidersPages(conn, input, fn)`: delegates to the
context variant with `context.Background()`. -/
def DescribeCapacityProvidersPages
    (conn : Context → DescribeCapacityProvidersInput → Except GoError DescribeCapacityProvidersOutput)
    (input : DescribeCapacityProvidersInput)
    (fn : σ → DescribeCapacityProvidersOutput → Bool → σ × Bool)
    (fuel : Nat) (s : σ) : PagesResult σ :=
  DescribeCapacityProvidersPagesWithContext .background conn input fn fuel s

/- ------------------------------------------------------------------ -/
/- resource_aws_ses_configuration_set.go: delete, expand, flatten.     -/
/- ------------------------------------------------------------------ -/

def ErrCodeConfigurationSetDoesNotExistException : String :=
  "ConfigurationSetDoesNotExist"

/-- `resourceAwsSesConfigurationSetDelete`, as a function of the SES
client's `DeleteConfigurationSet` behaviour (modelled by the function
`deleteConfigurationSet` from the configuration-set name to the call's
error) and the resource id `d.Id()`. Swallows
`ConfigurationSetDoesNotExistException`; any other error is wrapped with
`fmt.Errorf("error deleting SES Configuration Set (%s): %w", ...)`. -/
def resourceAwsSesConfigurationSetDelete
    (deleteConfigurationSet : String → Option GoError) (id : String) : Option GoError :=
  match deleteConfigurationSet id with
  | some e =>
    if !(isAWSErr (some e) ErrCodeConfigurationSetDoesNotExistException "") then
      some (.wrapped ("error deleting SES Configuration Set (" ++ id ++ ")") e)
    else none
  | none => none

/-- A Terraform attribute value (`interface{}` inside the schema data):
nil, a string, a bool, or a `map[string]interface{}`. -/
inductive TfValue where
  | nilT
  | strT (s : String)
  | boolT (b : Bool)
  | mapT (m : List (String × TfValue))

/-- Go map lookup `m[k]` on a `map[string]interface{}`. -/
def tfGet (m : List (String × TfValue)) (k : String) : Option TfValue :=
  (m.find? (fun p => p.1 == k)).map (fun p => p.2)

/-- Go type assertion `v, ok := m[k].(string)`: ok iff the key is present
and the value is a string. -/
def tfGetString (m : List (String × TfValue)) (k : String) : Option String :=
  match tfGet m k with
  | some (.strT s) => some s
  | _ => none

structure DeliveryOptions where
  tlsPolicy : Option String
deriving DecidableEq, Repr

/-- `expandSesConfigurationSetDeliveryOptions(l)`: nil (`none`) for an
empty list or a nil first element; otherwise the first element must be a
`map[string]interface{}` (else nil), and `TlsPolicy` is set only when the
map's `"tls_policy"` is a non-empty string. -/
def expandSesConfigurationSetDeliveryOptions (l : List TfValue) : Option DeliveryOptions :=
  match l with
  | [] => none
  | x :: _ =>
    match x with
    | .nilT => none
    | .mapT tfMap =>
      match tfGetString tfMap "tls_policy" with
      | some v => if v != "" then some { tlsPolicy := some v } else some { tlsPolicy := none }
      | none => some { tlsPolicy := none }
    | _ => none

/-- `flattenSesConfigurationSetDeliveryOptions(options)`: nil (`[]`, the
nil slice) for a nil argument; otherwise a one-element list holding the
map from `"tls_policy"` to `aws.StringValue(options.TlsPolicy)`. -/
def flattenSesConfigurationSetDeliveryOptions (options : Option DeliveryOptions) : List TfValue :=
  match options with
  | none => []
  | some o => [.mapT [("tls_policy", .strT (StringValue o.tlsPolicy))]]

/- ------------------------------------------------------------------ -/
/- Probe constructors as closures over (conn, id).                     -/
/- ------------------------------------------------------------------ -/

/-- An opaque `*directconnect.DirectConnect` SDK client handle; the
probes capture it but never inspect it. -/
structure DirectConnect where
  clientId : Nat
deriving DecidableEq, Repr

/-- An opaque `*lexmodelbuildingservice.LexModelBuildingService` SDK
client handle. -/
structure LexModelBuildingService where
  clientId : Nat
deriving DecidableEq, Repr

/-- `waiter.ConnectionState(conn, id)`: the constructor. The returned Go
closure captures only the immutable `conn` and `id`; each invocation
calls `finder.ConnectionByID(conn, id)` against the external system,
whose response at observation instant `w` is `finder w conn id` (the
instant models eventual consistency: different invocations may observe
different responses). -/
def mkConnectionStateProbe
    (finder : Nat → DirectConnect → String → Option Connection × Option GoError)
    (conn : DirectConnect) (id : String) : Nat → ProbeResult :=
  fun w => ConnectionState (finder w conn id).1 (finder w conn id).2

/-- `statusBotVersion(conn, name, version)` as a constructor, closing
over the immutable `conn`, `name` and `version`; each invocation calls
`FindBotVersionByName(conn, name, version)` at observation instant `w`. -/
def mkStatusBotVersionProbe
    (finder : Nat → LexModelBuildingService → String → String → Option BotVersionOutput × Option GoError)
    (conn : LexModelBuildingService) (name version : String) : Nat → ProbeResult :=
  fun w => statusBotVersion (finder w conn name version).1 (finder w conn name version).2

/-- An opaque `*securityhub.SecurityHub` SDK client handle. -/
structure SecurityHub where
  clientId : Nat
deriving DecidableEq, Repr

/-- `waiter.GatewayState(conn, id)` as a constructor, closing over the
immutable `conn` and `id`; an invocation calls `finder.GatewayByID` at
observation instant `w`. -/
def mkGatewayStateProbe
    (finder : Nat → DirectConnect → String → Option Gateway × Option GoError)
    (conn : DirectConnect) (id : String) : Nat → ProbeResult :=
  fun w => GatewayState (finder w conn id).1 (finder w conn id).2

/-- `waiter.GatewayAssociationState(conn, id)` as a constructor; an
invocation calls `finder.GatewayAssociationByID` at instant `w`. -/
def mkGatewayAssociationStateProbe
    (finder : Nat → DirectConnect → String → Option GatewayAssociation × Option GoError)
    (conn : DirectConnect) (id : String) : Nat → ProbeResult :=
  fun w => GatewayAssociationState (finder w conn id).1 (finder w conn id).2

/-- `waiter.HostedConnectionState(conn, id)` as a constructor; an
invocation calls `finder.HostedConnectionByID` at instant `w`. -/
def mkHostedConnectionStateProbe
    (finder : Nat → DirectConnect → String → Option Connection × Option GoError)
    (conn : DirectConnect) (id : String) : Nat → ProbeResult :=
  fun w => HostedConnectionState (finder w conn id).1 (finder w conn id).2

/-- `waiter.LagState(conn, id)` as a constructor; an invocation calls
`finder.LagByID` at instant `w`. -/
def mkLagStateProbe
    (finder : Nat → DirectConnect → String → Option Lag × Option GoError)
    (conn : DirectConnect) (id : String) : Nat → ProbeResult :=
  fun w => LagState (finder w conn id).1 (finder w conn id).2

/-- `statusAdminAccountAdmin(conn, adminAccountID)` as a constructor; an
invocation calls `FindAdminAccount` at instant `w`. -/
def mkStatusAdminAccountAdminProbe
    (finder : Nat → SecurityHub → String → Option AdminAccount × Option GoError)
    (conn : SecurityHub) (adminAccountID : String) : Nat → ProbeResult :=
  fun w => statusAdminAccountAdmin (finder w conn adminAccountID).1 (finder w conn adminAccountID).2

/-- `statusStandardsSubscription(conn, arn)` as a constructor; an
invocation calls `FindStandardsSubscriptionByARN` at instant `w`. -/
def mkStatusStandardsSubscriptionProbe
    (finder : Nat → SecurityHub → String → Option StandardsSubscription × Option GoError)
    (conn : SecurityHub) (arn : String) : Nat → ProbeResult :=
  fun w => statusStandardsSubscription (finder w conn arn).1 (finder w conn arn).2

/-- `statusLexSlotType(conn, id)` as a constructor; an invocation calls
`conn.GetSlotTypeVersions` at instant `w`. -/
def mkStatusLexSlotTypeProbe
    (fetch : Nat → LexModelBuildingService → String → Option GetSlotTypeVersionsOutput × Option GoError)
    (conn : LexModelBuildingService) (id : String) : Nat → ProbeResult :=
  fun w => statusLexSlotType (fetch w conn id).1 (fetch w conn id).2

/-- `statusLexIntent(conn, id)` as a constructor; an invocation calls
`conn.GetIntentVersions` at instant `w`. -/
def mkStatusLexIntentProbe
    (fetch : Nat → LexModelBuildingService → String → Option GetIntentVersionsOutput × Option GoError)
    (conn : LexModelBuildingService) (id : String) : Nat → ProbeResult :=
  fun w => statusLexIntent (fetch w conn id).1 (fetch w conn id).2

/-- `statusLexBotAlias(conn, botAliasName, botName)` as a constructor; an
invocation calls `conn.GetBotAlias` at instant `w`. -/
def mkStatusLexBotAliasProbe
    (fetch : Nat → LexModelBuildingService → String → String → Option GetBotAliasOutput × Option GoError)
    (conn : LexModelBuildingService) (botAliasName botName : String) : Nat → ProbeResult :=
  fun w => statusLexBotAlias (fetch w conn botAliasName botName).1 (fetch w conn botAliasName botName).2

/- ------------------------------------------------------------------ -/
/- Theorems.                                                           -/
/- ------------------------------------------------------------------ -/

/-- C1 (counterexample): `statusStandardsSubscription` is a StatusProbe
of the corpus whose underlying fetch can report that the entity does not
exist (a not-found error), yet the probe returns the fake snapshot `""`
and the status label `"NotFound"` — not the triple `(nil, "", nil)` the
claim requires of every probe. -/
theorem C1_counterexample :
    statusStandardsSubscription none (some .notFoundError) =
      (.strV "", "NotFound", none) ∧
    ((GoValue.strV "", "NotFound", (none : Option GoError)) ≠
      (GoValue.nilV, "", (none : Option GoError))) := by
  exact ⟨rfl, by decide⟩

/-- C1 (amended): whenever the underlying fetch reports that the entity
does not exist, every StatusProbe of the corpus returns a nil error; the
five directconnect probes and `statusBotVersion` return `(nil, "", nil)`,
while `statusAdminAccountAdmin` returns `(nil, "NotFound", nil)`,
`statusStandardsSubscription` returns `("", "NotFound", nil)`, and the
three lex probes return `(nil, "NOTFOUND", nil)`. -/
theorem C1_not_found_amended :
    (∀ (output : Option Connection) (err : Option GoError), NotFound err = true →
        ConnectionState output err = (.nilV, "", none)) ∧
    (∀ (output : Option Gateway) (err : Option GoError), NotFound err = true →
        GatewayState output err = (.nilV, "", none)) ∧
    (∀ (output : Option GatewayAssociation) (err : Option GoError), NotFound err = true →
        GatewayAssociationState output err = (.nilV, "", none)) ∧
    (∀ (output : Option Connection) (err : Option GoError), NotFound err = true →
        HostedConnectionState output err = (.nilV, "", none)) ∧
    (∀ (output : Option Lag) (err : Option GoError), NotFound err = true →
        LagState output err = (.nilV, "", none)) ∧
    (∀ (output : Option BotVersionOutput) (err : Option GoError), NotFound err = true →
        statusBotVersion output err = (.nilV, "", none)) ∧
    (statusAdminAccountAdmin none none = (.nilV, "NotFound", none)) ∧
    (∀ (output : Option StandardsSubscription) (err : Option GoError), NotFound err = true →
        statusStandardsSubscription output err = (.strV "", "NotFound", none)) ∧
    (∀ (output : Option GetSlotTypeVersionsOutput) (err : Option GoError),
        ErrCodeEquals err ErrCodeNotFoundException = true →
        statusLexSlotType output err = (.nilV, "NOTFOUND", none)) ∧
    (∀ (output : Option GetIntentVersionsOutput) (err : Option GoError),
        ErrCodeEquals err ErrCodeNotFoundException = true →
        statusLexIntent output err = (.nilV, "NOTFOUND", none)) ∧
    (∀ (output : Option GetBotAliasOutput) (err : Option GoError),
        ErrCodeEquals err ErrCodeNotFoundException = true →
        statusLexBotAlias output err = (.nilV, "NOTFOUND", none)) := by
  refine ⟨?_, ?_, ?_, ?_, ?_, ?_, rfl, ?_, ?_, ?_, ?_⟩ <;>
    intro output err h <;>
    simp [ConnectionState, GatewayState, GatewayAssociationState, HostedConnectionState,
      LagState, statusBotVersion, statusStandardsSubscription, statusLexSlotType,
      statusLexIntent, statusLexBotAlias, standardsStatusNotFound,
      lexModelBuildingServiceStatusNotFound, h]

/-- C1 (witness): the amended statement evaluated at concrete not-found
fetch results for each probe. -/
theorem C1_not_found_amended_witness :
    ConnectionState (none : Option Connection) (some .notFoundError) = (.nilV, "", none) ∧
    GatewayState none (some .notFoundError) = (.nilV, "", none) ∧
    GatewayAssociationState none (some .notFoundError) = (.nilV, "", none) ∧
    HostedConnectionState none (some .notFoundError) = (.nilV, "", none) ∧
    LagState none (some .notFoundError) = (.nilV, "", none) ∧
    statusBotVersion none (some .notFoundError) = (.nilV, "", none) ∧
    statusStandardsSubscription none (some .notFoundError) = (.strV "", "NotFound", none) ∧
    statusLexSlotType none (some (.awsErr "NotFoundException" "x")) = (.nilV, "NOTFOUND", none) ∧
    statusLexIntent none (some (.awsErr "NotFoundException" "x")) = (.nilV, "NOTFOUND", none) ∧
    statusLexBotAlias none (some (.awsErr "NotFoundException" "x")) = (.nilV, "NOTFOUND", none) :=
  ⟨C1_not_found_amended.1 none _ (by decide),
   C1_not_found_amended.2.1 none _ (by decide),
   C1_not_found_amended.2.2.1 none _ (by decide),
   C1_not_found_amended.2.2.2.1 none _ (by decide),
   C1_not_found_amended.2.2.2.2.1 none _ (by decide),
   C1_not_found_amended.2.2.2.2.2.1 none _ (by decide),
   C1_not_found_amended.2.2.2.2.2.2.2.1 none _ (by decide),
   C1_not_found_amended.2.2.2.2.2.2.2.2.1 none _ (by decide),
   C1_not_found_amended.2.2.2.2.2.2.2.2.2.1 none _ (by decide),
   C1_not_found_amended.2.2.2.2.2.2.2.2.2.2 none _ (by decide)⟩

/-- C3: whenever the underlying fetch fails with an error that is not a
not-found error (in each probe's own sense of not-found), every
StatusProbe of the corpus returns exactly that error value, unchanged,
as the error component of its triple. -/
theorem C3_error_passthrough :
    (∀ (output : Option Connection) (e : GoError), NotFound (some e) = false →
        ConnectionState output (some e) = (.nilV, "", some e)) ∧
    (∀ (output : Option Gateway) (e : GoError), NotFound (some e) = false →
        GatewayState output (some e) = (.nilV, "", some e)) ∧
    (∀ (output : Option GatewayAssociation) (e : GoError), NotFound (some e) = false →
        GatewayAssociationState output (some e) = (.nilV, "", some e)) ∧
    (∀ (output : Option Connection) (e : GoError), NotFound (some e) = false →
        HostedConnectionState output (some e) = (.nilV, "", some e)) ∧
    (∀ (output : Option Lag) (e : GoError), NotFound (some e) = false →
        LagState output (some e) = (.nilV, "", some e)) ∧
    (∀ (adminAccount : Option AdminAccount) (e : GoError), NotFound (some e) = false →
        statusAdminAccountAdmin adminAccount (some e) = (.nilV, "Unknown", some e)) ∧
    (∀ (output : Option StandardsSubscription) (e : GoError), NotFound (some e) = false →
        statusStandardsSubscription output (some e) = (.nilV, "", some e)) ∧
    (∀ (output : Option BotVersionOutput) (e : GoError), NotFound (some e) = false →
        statusBotVersion output (some e) = (.nilV, "", some e)) ∧
    (∀ (output : Option GetSlotTypeVersionsOutput) (e : GoError),
        ErrCodeEquals (some e) ErrCodeNotFoundException = false →
        statusLexSlotType output (some e) = (.nilV, "UNKNOWN", some e)) ∧
    (∀ (output : Option GetIntentVersionsOutput) (e : GoError),
        ErrCodeEquals (some e) ErrCodeNotFoundException = false →
        statusLexIntent output (some e) = (.nilV, "UNKNOWN", some e)) ∧
    (∀ (output : Option GetBotAliasOutput) (e : GoError),
        ErrCodeEquals (some e) ErrCodeNotFoundException = false →
        statusLexBotAlias output (some e) = (.nilV, "UNKNOWN", some e)) := by
  refine ⟨?_, ?_, ?_, ?_, ?_, ?_, ?_, ?_, ?_, ?_, ?_⟩ <;>
    intro output e h <;>
    simp [ConnectionState, GatewayState, GatewayAssociationState, HostedConnectionState,
      LagState, statusAdminAccountAdmin, statusStandardsSubscription, statusBotVersion,
      statusLexSlotType, statusLexIntent, statusLexBotAlias, adminStatusUnknown,
      lexModelBuildingServiceStatusUnknown, h]

/-- C3 (witness): the pass-through evaluated at the concrete fault
`other "boom"` for each probe. -/
theorem C3_error_passthrough_witness :
    ConnectionState (none : Option Connection) (some (.other "boom")) = (.nilV, "", some (.other "boom")) ∧
    GatewayState none (some (.other "boom")) = (.nilV, "", some (.other "boom")) ∧
    GatewayAssociationState none (some (.other "boom")) = (.nilV, "", some (.other "boom")) ∧
    HostedConnectionState none (some (.other "boom")) = (.nilV, "", some (.other "boom")) ∧
    LagState none (some (.other "boom")) = (.nilV, "", some (.other "boom")) ∧
    statusAdminAccountAdmin none (some (.other "boom")) = (.nilV, "Unknown", some (.other "boom")) ∧
    statusStandardsSubscription none (some (.other "boom")) = (.nilV, "", some (.other "boom")) ∧
    statusBotVersion none (some (.other "boom")) = (.nilV, "", some (.other "boom")) ∧
    statusLexSlotType none (some (.other "boom")) = (.nilV, "UNKNOWN", some (.other "boom")) ∧
    statusLexIntent none (some (.other "boom")) = (.nilV, "UNKNOWN", some (.other "boom")) ∧
    statusLexBotAlias none (some (.other "boom")) = (.nilV, "UNKNOWN", some (.other "boom")) :=
  ⟨C3_error_passthrough.1 none _ (by decide),
   C3_error_passthrough.2.1 none _ (by decide),
   C3_error_passthrough.2.2.1 none _ (by decide),
   C3_error_passthrough.2.2.2.1 none _ (by decide),
   C3_error_passthrough.2.2.2.2.1 none _ (by decide),
   C3_error_passthrough.2.2.2.2.2.1 none _ (by decide),
   C3_error_passthrough.2.2.2.2.2.2.1 none _ (by decide),
   C3_error_passthrough.2.2.2.2.2.2.2.1 none _ (by decide),
   C3_error_passthrough.2.2.2.2.2.2.2.2.1 none _ (by decide),
   C3_error_passthrough.2.2.2.2.2.2.2.2.2.1 none _ (by decide),
   C3_error_passthrough.2.2.2.2.2.2.2.2.2.2 none _ (by decide)⟩

/-- C5: when the underlying finder returns an entity without error, each
of the four directconnect probes named by the claim returns exactly that
entity as the snapshot, the (dereferenced) state field of the entity as
the status label, and a nil error. -/
theorem C5_success_forwards_entity :
    (∀ (c : Connection),
        ConnectionState (some c) none = (.connV c, StringValue c.connectionState, none)) ∧
    (∀ (g : Gateway),
        GatewayState (some g) none = (.gatewayV g, StringValue g.directConnectGatewayState, none)) ∧
    (∀ (c : Connection),
        HostedConnectionState (some c) none = (.connV c, StringValue c.connectionState, none)) ∧
    (∀ (l : Lag),
        LagState (some l) none = (.lagV l, StringValue l.lagState, none)) :=
  ⟨fun _ => rfl, fun _ => rfl, fun _ => rfl, fun _ => rfl⟩

/-- C6: every StatusProbe constructor in the corpus — the five
directconnect ones, the two securityhub ones and the four lex ones —
returns a pure closure over its connection and identifier arguments: the
`(snapshot, status, error)` triple an invocation produces is fully
determined by the result of the underlying fetch at that invocation, so
two invocations (at observation instants `w` and `w'`, even against
different external histories `finder` and `finder'`) whose fetches
return the same result produce identical triples, and no hidden mutable
state carried between invocations can influence the outcome. -/
theorem C6_probe_purity :
    (∀ (finder finder' : Nat → DirectConnect → String → Option Connection × Option GoError)
       (conn : DirectConnect) (id : String) (w w' : Nat),
        finder w conn id = finder' w' conn id →
        mkConnectionStateProbe finder conn id w = mkConnectionStateProbe finder' conn id w') ∧
    (∀ (finder finder' : Nat → DirectConnect → String → Option Gateway × Option GoError)
       (conn : DirectConnect) (id : String) (w w' : Nat),
        finder w conn id = finder' w' conn id →
        mkGatewayStateProbe finder conn id w = mkGatewayStateProbe finder' conn id w') ∧
    (∀ (finder finder' : Nat → DirectConnect → String → Option GatewayAssociation × Option GoError)
       (conn : DirectConnect) (id : String) (w w' : Nat),
        finder w conn id = finder' w' conn id →
        mkGatewayAssociationStateProbe finder conn id w =
          mkGatewayAssociationStateProbe finder' conn id w') ∧
    (∀ (finder finder' : Nat → DirectConnect → String → Option Connection × Option GoError)
       (conn : DirectConnect) (id : String) (w w' : Nat),
        finder w conn id = finder' w' conn id →
        mkHostedConnectionStateProbe finder conn id w =
          mkHostedConnectionStateProbe finder' conn id w') ∧
    (∀ (finder finder' : Nat → DirectConnect → String → Option Lag × Option GoError)
       (conn : DirectConnect) (id : String) (w w' : Nat),
        finder w conn id = finder' w' conn id →
        mkLagStateProbe finder conn id w = mkLagStateProbe finder' conn id w') ∧
    (∀ (finder finder' : Nat → SecurityHub → String → Option AdminAccount × Option GoError)
       (conn : SecurityHub) (adminAccountID : String) (w w' : Nat),
        finder w conn adminAccountID = finder' w' conn adminAccountID →
        mkStatusAdminAccountAdminProbe finder conn adminAccountID w =
          mkStatusAdminAccountAdminProbe finder' conn adminAccountID w') ∧
    (∀ (finder finder' : Nat → SecurityHub → String → Option StandardsSubscription × Option GoError)
       (conn : SecurityHub) (arn : String) (w w' : Nat),
        finder w conn arn = finder' w' conn arn →
        mkStatusStandardsSubscriptionProbe finder conn arn w =
          mkStatusStandardsSubscriptionProbe finder' conn arn w') ∧
    (∀ (finder finder' : Nat → LexModelBuildingService → String → String →
          Option BotVersionOutput × Option GoError)
       (conn : LexModelBuildingService) (name version : String) (w w' : Nat),
        finder w conn name version = finder' w' conn name version →
        mkStatusBotVersionProbe finder conn name version w =
          mkStatusBotVersionProbe finder' conn name version w') ∧
    (∀ (fetch fetch' : Nat → LexModelBuildingService → String →
          Option GetSlotTypeVersionsOutput × Option GoError)
       (conn : LexModelBuildingService) (id : String) (w w' : Nat),
        fetch w conn id = fetch' w' conn id →
        mkStatusLexSlotTypeProbe fetch conn id w = mkStatusLexSlotTypeProbe fetch' conn id w') ∧
    (∀ (fetch fetch' : Nat → LexModelBuildingService → String →
          Option GetIntentVersionsOutput × Option GoError)
       (conn : LexModelBuildingService) (id : String) (w w' : Nat),
        fetch w conn id = fetch' w' conn id →
        mkStatusLexIntentProbe fetch conn id w = mkStatusLexIntentProbe fetch' conn id w') ∧
    (∀ (fetch fetch' : Nat → LexModelBuildingService → String → String →
          Option GetBotAliasOutput × Option GoError)
       (conn : LexModelBuildingService) (botAliasName botName : String) (w w' : Nat),
        fetch w conn botAliasName botName = fetch' w' conn botAliasName botName →
        mkStatusLexBotAliasProbe fetch conn botAliasName botName w =
          mkStatusLexBotAliasProbe fetch' conn botAliasName botName w') :=
  ⟨fun _ _ _ _ _ _ h => by unfold mkConnectionStateProbe; rw [h],
   fun _ _ _ _ _ _ h => by unfold mkGatewayStateProbe; rw [h],
   fun _ _ _ _ _ _ h => by unfold mkGatewayAssociationStateProbe; rw [h],
   fun _ _ _ _ _ _ h => by unfold mkHostedConnectionStateProbe; rw [h],
   fun _ _ _ _ _ _ h => by unfold mkLagStateProbe; rw [h],
   fun _ _ _ _ _ _ h => by unfold mkStatusAdminAccountAdminProbe; rw [h],
   fun _ _ _ _ _ _ h => by unfold mkStatusStandardsSubscriptionProbe; rw [h],
   fun _ _ _ _ _ _ _ h => by unfold mkStatusBotVersionProbe; rw [h],
   fun _ _ _ _ _ _ h => by unfold mkStatusLexSlotTypeProbe; rw [h],
   fun _ _ _ _ _ _ h => by unfold mkStatusLexIntentProbe; rw [h],
   fun _ _ _ _ _ _ _ h => by unfold mkStatusLexBotAliasProbe; rw [h]⟩

/-- C6 (witness): determinism of all eleven constructors evaluated on
concrete finders at two distinct observation instants — for the first
probe even against two different external histories that agree on the
fetched result. -/
theorem C6_probe_purity_witness :
    mkConnectionStateProbe (fun _ _ _ => (none, some .notFoundError)) ⟨0⟩ "dxcon-1" 0 =
      mkConnectionStateProbe
        (fun w _ _ => if w = 0 then (some ⟨some "available"⟩, none) else (none, some .notFoundError))
        ⟨0⟩ "dxcon-1" 1 ∧
    mkGatewayStateProbe (fun _ _ _ => (none, some .notFoundError)) ⟨0⟩ "gw-1" 0 =
      mkGatewayStateProbe (fun _ _ _ => (none, some .notFoundError)) ⟨0⟩ "gw-1" 1 ∧
    mkGatewayAssociationStateProbe (fun _ _ _ => (none, some .notFoundError)) ⟨0⟩ "ga-1" 0 =
      mkGatewayAssociationStateProbe (fun _ _ _ => (none, some .notFoundError)) ⟨0⟩ "ga-1" 1 ∧
    mkHostedConnectionStateProbe (fun _ _ _ => (none, some .notFoundError)) ⟨0⟩ "hc-1" 0 =
      mkHostedConnectionStateProbe (fun _ _ _ => (none, some .notFoundError)) ⟨0⟩ "hc-1" 1 ∧
    mkLagStateProbe (fun _ _ _ => (none, some .notFoundError)) ⟨0⟩ "lag-1" 0 =
      mkLagStateProbe (fun _ _ _ => (none, some .notFoundError)) ⟨0⟩ "lag-1" 1 ∧
    mkStatusAdminAccountAdminProbe (fun _ _ _ => (none, none)) ⟨0⟩ "acct" 0 =
      mkStatusAdminAccountAdminProbe (fun _ _ _ => (none, none)) ⟨0⟩ "acct" 1 ∧
    mkStatusStandardsSubscriptionProbe (fun _ _ _ => (none, some .notFoundError)) ⟨0⟩ "arn" 0 =
      mkStatusStandardsSubscriptionProbe (fun _ _ _ => (none, some .notFoundError)) ⟨0⟩ "arn" 1 ∧
    mkStatusBotVersionProbe (fun _ _ _ _ => (none, some .notFoundError)) ⟨0⟩ "bot" "1" 0 =
      mkStatusBotVersionProbe (fun _ _ _ _ => (none, some .notFoundError)) ⟨0⟩ "bot" "1" 1 ∧
    mkStatusLexSlotTypeProbe (fun _ _ _ => (none, none)) ⟨0⟩ "slot" 0 =
      mkStatusLexSlotTypeProbe (fun _ _ _ => (none, none)) ⟨0⟩ "slot" 1 ∧
    mkStatusLexIntentProbe (fun _ _ _ => (none, none)) ⟨0⟩ "intent" 0 =
      mkStatusLexIntentProbe (fun _ _ _ => (none, none)) ⟨0⟩ "intent" 1 ∧
    mkStatusLexBotAliasProbe (fun _ _ _ _ => (none, none)) ⟨0⟩ "alias" "bot" 0 =
      mkStatusLexBotAliasProbe (fun _ _ _ _ => (none, none)) ⟨0⟩ "alias" "bot" 1 :=
  ⟨C6_probe_purity.1 _ _ ⟨0⟩ "dxcon-1" 0 1 rfl,
   C6_probe_purity.2.1 _ _ ⟨0⟩ "gw-1" 0 1 rfl,
   C6_probe_purity.2.2.1 _ _ ⟨0⟩ "ga-1" 0 1 rfl,
   C6_probe_purity.2.2.2.1 _ _ ⟨0⟩ "hc-1" 0 1 rfl,
   C6_probe_purity.2.2.2.2.1 _ _ ⟨0⟩ "lag-1" 0 1 rfl,
   C6_probe_purity.2.2.2.2.2.1 _ _ ⟨0⟩ "acct" 0 1 rfl,
   C6_probe_purity.2.2.2.2.2.2.1 _ _ ⟨0⟩ "arn" 0 1 rfl,
   C6_probe_purity.2.2.2.2.2.2.2.1 _ _ ⟨0⟩ "bot" "1" 0 1 rfl,
   C6_probe_purity.2.2.2.2.2.2.2.2.1 _ _ ⟨0⟩ "slot" 0 1 rfl,
   C6_probe_purity.2.2.2.2.2.2.2.2.2.1 _ _ ⟨0⟩ "intent" 0 1 rfl,
   C6_probe_purity.2.2.2.2.2.2.2.2.2.2 _ _ ⟨0⟩ "alias" "bot" 0 1 rfl⟩

/-- C9: `resourceAwsSesConfigurationSetDelete` is idempotent with respect
to absence — a `ConfigurationSetDoesNotExistException` from
`DeleteConfigurationSet` yields a nil (success) return, and the function
returns a non-nil error exactly when `DeleteConfigurationSet` fails with
any other error. -/
theorem C9_delete_idempotent_absence :
    (∀ (deleteConfigurationSet : String → Option GoError) (id : String) (e : GoError),
        deleteConfigurationSet id = some e →
        isAWSErr (some e) ErrCodeConfigurationSetDoesNotExistException "" = true →
        resourceAwsSesConfigurationSetDelete deleteConfigurationSet id = none) ∧
    (∀ (deleteConfigurationSet : String → Option GoError) (id : String),
        resourceAwsSesConfigurationSetDelete deleteConfigurationSet id ≠ none ↔
        ∃ e, deleteConfigurationSet id = some e ∧
          isAWSErr (some e) ErrCodeConfigurationSetDoesNotExistException "" = false) := by
  constructor
  · intro deleteConfigurationSet id e hcall hcode
    simp [resourceAwsSesConfigurationSetDelete, hcall, hcode]
  · intro deleteConfigurationSet id
    unfold resourceAwsSesConfigurationSetDelete
    rcases hcall : deleteConfigurationSet id with _ | e
    · simp
    · rcases hcode : isAWSErr (some e) ErrCodeConfigurationSetDoesNotExistException "" <;>
        simp [hcode]

/-- C9 (witness): a concrete `ConfigurationSetDoesNotExist` failure is
swallowed, and a concrete throttling failure is reported. -/
theorem C9_delete_idempotent_absence_witness :
    resourceAwsSesConfigurationSetDelete
      (fun _ => some (.awsErr "ConfigurationSetDoesNotExist" "no such set")) "cs1" = none ∧
    resourceAwsSesConfigurationSetDelete
      (fun _ => some (.awsErr "Throttling" "slow down")) "cs1" ≠ none :=
  ⟨C9_delete_idempotent_absence.1 _ "cs1" _ rfl (by decide),
   (C9_delete_idempotent_absence.2 _ "cs1").mpr ⟨.awsErr "Throttling" "slow down", rfl, by decide⟩⟩

/-- C10: delivery-options conversion round-trips — a one-element list
whose element maps `"tls_policy"` to a non-empty string `v` flattens back
(after expanding) to the one-element list mapping `"tls_policy"` to `v`;
an empty list or a list with a nil first element expands to nil, and
flattening nil yields nil. -/
theorem C10_delivery_options_roundtrip :
    (∀ (m : List (String × TfValue)) (v : String),
        tfGetString m "tls_policy" = some v → v ≠ "" →
        flattenSesConfigurationSetDeliveryOptions
            (expandSesConfigurationSetDeliveryOptions [.mapT m]) =
          [.mapT [("tls_policy", .strT v)]]) ∧
    (expandSesConfigurationSetDeliveryOptions [] = none) ∧
    (∀ (rest : List TfValue), expandSesConfigurationSetDeliveryOptions (.nilT :: rest) = none) ∧
    (flattenSesConfigurationSetDeliveryOptions none = []) := by
  refine ⟨?_, rfl, fun _ => rfl, rfl⟩
  intro m v hget hv
  have hne : (v != "") = true := by simpa [bne_iff_ne] using hv
  simp [expandSesConfigurationSetDeliveryOptions, hget, hne,
    flattenSesConfigurationSetDeliveryOptions, StringValue]

/-- C10 (witness): the round-trip evaluated on the concrete map sending
`"tls_policy"` to `"Require"`. -/
theorem C10_delivery_options_roundtrip_witness :
    flattenSesConfigurationSetDeliveryOptions
        (expandSesConfigurationSetDeliveryOptions [.mapT [("tls_policy", .strT "Require")]]) =
      [.mapT [("tls_policy", .strT "Require")]] :=
  C10_delivery_options_roundtrip.1 [("tls_policy", .strT "Require")] "Require" rfl (by decide)

/-- C2: if the first probe observation carries a status that lies in both
the target and the failure set of a (misconfigured) Transition Table,
`Wait` returns the failure error and never a success; and when a status
lies in target (but not failure) as well as in pending, target wins —
failure takes precedence over target, which takes precedence over
pending, deterministically. -/
theorem C2_failure_precedence :
    ∀ (cfg : WaitConfig) (t : TransitionTable) (probe : Nat → ProbeResult)
      (v : GoValue) (s : String),
      0 < cfg.timeoutTicks → probe 0 = (v, s, none) →
      ((s ∈ t.failure → s ∈ t.target →
          Wait cfg t probe = .targetNotReached s ∧
          ∀ snap, Wait cfg t probe ≠ .success snap) ∧
       (s ∉ t.failure → s ∈ t.target → s ∈ t.pending →
          Wait cfg t probe = .success v)) := by
  intro cfg t probe v s htime hp
  obtain ⟨k, hk⟩ : ∃ k, cfg.timeoutTicks = k + 1 := ⟨cfg.timeoutTicks - 1, by omega⟩
  constructor
  · intro hf _
    have hw : Wait cfg t probe = .targetNotReached s := by
      unfold Wait
      rw [hk]
      simp [waitLoop, hp, classify, hf]
    exact ⟨hw, fun snap hsnap => by rw [hw] at hsnap; exact WaitOutcome.noConfusion hsnap⟩
  · intro hf ht _
    unfold Wait
    rw [hk]
    simp [waitLoop, hp, classify, hf, ht]

/-- C2 (witness): a table whose sole status `"BOTH"` is simultaneously a
target and a failure makes `Wait` report `targetNotReached`, and a status
that is both target and pending makes it succeed. -/
theorem C2_failure_precedence_witness :
    Wait ⟨1, 0⟩ ⟨[], ["BOTH"], ["BOTH"]⟩ (fun _ => (.nilV, "BOTH", none)) =
      .targetNotReached "BOTH" ∧
    Wait ⟨1, 0⟩ ⟨["OK"], ["OK"], []⟩ (fun _ => (.nilV, "OK", none)) = .success .nilV :=
  ⟨((C2_failure_precedence ⟨1, 0⟩ ⟨[], ["BOTH"], ["BOTH"]⟩ _ .nilV "BOTH"
      (by decide) rfl).1 (by decide) (by decide)).1,
   (C2_failure_precedence ⟨1, 0⟩ ⟨["OK"], ["OK"], []⟩ _ .nilV "OK"
      (by decide) rfl).2 (by decide) (by decide) (by decide)⟩

/-- Helper: a probe that constantly reports absence `(nil, "", nil)`
against a table that classifies `""` neither as target nor as failure
drives the loop to a timeout or to an unexpected-status stop, never to
success, failure or a probe error. -/
theorem waitLoop_constant_absence (t : TransitionTable) (tol : Nat)
    (probe : Nat → ProbeResult) (hp : ∀ n, probe n = (.nilV, "", none))
    (ht : "" ∉ t.target) (hf : "" ∉ t.failure) :
    ∀ (fuel i ucount : Nat) (lastS : String),
      (∃ ls, waitLoop t tol probe fuel i ucount lastS = .timeout ls) ∨
      (∃ k, waitLoop t tol probe fuel i ucount lastS = .unexpectedStatus "" k) := by
  intro fuel
  induction fuel with
  | zero => exact fun i ucount lastS => .inl ⟨lastS, rfl⟩
  | succ fuel ih =>
    intro i ucount lastS
    by_cases hpend : "" ∈ t.pending
    · have hstep : waitLoop t tol probe (fuel + 1) i ucount lastS =
          waitLoop t tol probe fuel (i + 1) 0 "" := by
        simp [waitLoop, hp i, classify, ht, hf, hpend]
      rw [hstep]
      exact ih (i + 1) 0 ""
    · by_cases hu : ucount < tol
      · have hstep : waitLoop t tol probe (fuel + 1) i ucount lastS =
            waitLoop t tol probe fuel (i + 1) (ucount + 1) "" := by
          simp [waitLoop, hp i, classify, ht, hf, hpend, hu]
        rw [hstep]
        exact ih (i + 1) (ucount + 1) ""
      · exact .inr ⟨ucount + 1, by simp [waitLoop, hp i, classify, ht, hf, hpend, hu]⟩

/-- C7: a probe returning `(nil, "", nil)` while waiting for deletion —
empty failure set, target containing the implicit "gone" status `""` —
makes `Wait` succeed at once; while waiting for creation — `""` in
neither target nor failure — the same observations are treated as
pending, the wait ending only in a timeout or, once the tolerance for
unclassified statuses is exhausted, an unexpected-status error. -/
theorem C7_absence_handling :
    (∀ (cfg : WaitConfig) (t : TransitionTable) (probe : Nat → ProbeResult),
        t.failure = [] → "" ∈ t.target → probe 0 = (.nilV, "", none) →
        0 < cfg.timeoutTicks →
        Wait cfg t probe = .success .nilV) ∧
    (∀ (cfg : WaitConfig) (t : TransitionTable) (probe : Nat → ProbeResult),
        "" ∉ t.target → "" ∉ t.failure → (∀ n, probe n = (.nilV, "", none)) →
        (∃ ls, Wait cfg t probe = .timeout ls) ∨
        (∃ k, Wait cfg t probe = .unexpectedStatus "" k)) := by
  constructor
  · intro cfg t probe hfail htgt hp htime
    obtain ⟨k, hk⟩ : ∃ k, cfg.timeoutTicks = k + 1 := ⟨cfg.timeoutTicks - 1, by omega⟩
    unfold Wait
    rw [hk]
    simp [waitLoop, hp, classify, hfail, htgt]
  · intro cfg t probe htgt hfail hp
    exact waitLoop_constant_absence t cfg.unknownStatusTolerance probe hp htgt hfail
      cfg.timeoutTicks 0 0 ""

/-- C7 (witness): deletion of an entity that is already gone succeeds
immediately; creation polling against a persistently absent entity times
out with tolerance 5 over 3 ticks. -/
theorem C7_absence_handling_witness :
    Wait ⟨2, 0⟩ ⟨["deleting"], [""], []⟩ (fun _ => (.nilV, "", none)) = .success .nilV ∧
    ((∃ ls, Wait ⟨3, 5⟩ ⟨["CREATING"], ["CREATED"], []⟩ (fun _ => (.nilV, "", none)) = .timeout ls) ∨
     (∃ k, Wait ⟨3, 5⟩ ⟨["CREATING"], ["CREATED"], []⟩ (fun _ => (.nilV, "", none)) =
        .unexpectedStatus "" k)) :=
  ⟨C7_absence_handling.1 ⟨2, 0⟩ ⟨["deleting"], [""], []⟩ _ rfl (by decide) rfl (by decide),
   C7_absence_handling.2 ⟨3, 5⟩ ⟨["CREATING"], ["CREATED"], []⟩ _ (by decide) (by decide)
     (fun _ => rfl)⟩

/-- A Transition Table with non-empty target used to refute the claim's
unconditional termination property. -/
def c4Table : TransitionTable :=
  { pending := ["PENDING"], target := ["AVAILABLE"], failure := ["FAILED"] }

/-- A probe sequence that reports the failure status once and the target
status on every later invocation. -/
def c4Probe : Nat → ProbeResult
  | 0 => (.nilV, "FAILED", none)
  | _ + 1 => (.nilV, "AVAILABLE", none)

/-- C4 (counterexample): `c4Table` has a non-empty target and `c4Probe`
returns the target status `"AVAILABLE"` at tick 1, well within the
5-tick timeout window — yet `Wait` does not terminate successfully: it
stops with the failure error for the `"FAILED"` status observed first. -/
theorem C4_counterexample :
    (c4Table.target ≠ [] ∧ 1 < 5 ∧ c4Probe 1 = (.nilV, "AVAILABLE", none) ∧
      "AVAILABLE" ∈ c4Table.target) ∧
    Wait ⟨5, 0⟩ c4Table c4Probe = .targetNotReached "FAILED" ∧
    ∀ snap, Wait ⟨5, 0⟩ c4Table c4Probe ≠ .success snap := by
  have hw : Wait ⟨5, 0⟩ c4Table c4Probe = .targetNotReached "FAILED" := by decide
  exact ⟨by decide, hw, fun snap hsnap => by rw [hw] at hsnap; exact WaitOutcome.noConfusion hsnap⟩

/-- Helper: if the probe's observations at offsets `i, i+1, ...` are
error-free and classified pending up to offset `i + n`, where the
observation is classified target, and the remaining fuel exceeds `n`,
then the loop succeeds with the snapshot observed there. -/
theorem waitLoop_pending_then_target (t : TransitionTable) (tol : Nat)
    (probe : Nat → ProbeResult) :
    ∀ (n fuel i ucount : Nat) (lastS : String), n < fuel →
      (∀ m, m < n → (probe (i + m)).2.2 = none ∧ classify t (probe (i + m)).2.1 = .pending) →
      (probe (i + n)).2.2 = none →
      classify t (probe (i + n)).2.1 = .target →
      waitLoop t tol probe fuel i ucount lastS = .success (probe (i + n)).1 := by
  intro n
  induction n with
  | zero =>
    intro fuel i ucount lastS hfuel _ herr htgt
    obtain ⟨fuel, rfl⟩ : ∃ k, fuel = k + 1 := ⟨fuel - 1, by omega⟩
    simp only [Nat.add_zero] at herr htgt ⊢
    rcases hp : probe i with ⟨snap, status, err⟩
    rw [hp] at herr htgt
    simp only at herr htgt
    subst herr
    simp [waitLoop, hp, htgt]
  | succ m ih =>
    intro fuel i ucount lastS hfuel hpend herr htgt
    obtain ⟨fuel, rfl⟩ : ∃ k, fuel = k + 1 := ⟨fuel - 1, by omega⟩
    have h0 := hpend 0 (by omega)
    simp only [Nat.add_zero] at h0
    rcases hp : probe i with ⟨snap, status, err⟩
    rw [hp] at h0
    have herr0 : err = none := by simpa using h0.1
    have hcls0 : classify t status = .pending := by simpa using h0.2
    subst herr0
    have hstep : waitLoop t tol probe (fuel + 1) i ucount lastS =
        waitLoop t tol probe fuel (i + 1) 0 status := by
      simp [waitLoop, hp, hcls0]
    rw [hstep]
    have hidx : i + (m + 1) = (i + 1) + m := by omega
    rw [hidx] at herr htgt ⊢
    exact ih fuel (i + 1) 0 status (by omega)
      (fun m1 hm1 => by
        have := hpend (m1 + 1) (by omega)
        have hidx1 : i + (m1 + 1) = (i + 1) + m1 := by omega
        rwa [hidx1] at this)
      herr htgt

/-- C4 (amended): for every Transition Table and every StatusProbe whose
observations are error-free and classified pending until it first
returns a target-classified status within the timeout window, `Wait`
terminates successfully, returning that probe observation's Entity
Snapshot and no error. (The unqualified claim is refuted by
`C4_counterexample`: a failure status or probe fault observed before the
target stops the waiter first.) -/
theorem C4_eventual_target_amended :
    ∀ (cfg : WaitConfig) (t : TransitionTable) (probe : Nat → ProbeResult) (n : Nat),
      n < cfg.timeoutTicks →
      (∀ m, m < n → (probe m).2.2 = none ∧ classify t (probe m).2.1 = .pending) →
      (probe n).2.2 = none →
      classify t (probe n).2.1 = .target →
      Wait cfg t probe = .success (probe n).1 := by
  intro cfg t probe n hlt hpend herr htgt
  unfold Wait
  have h := waitLoop_pending_then_target t cfg.unknownStatusTolerance probe n
    cfg.timeoutTicks 0 0 "" hlt
    (fun m hm => by simpa only [Nat.zero_add] using hpend m hm)
    (by simpa only [Nat.zero_add] using herr)
    (by simpa only [Nat.zero_add] using htgt)
  simpa only [Nat.zero_add] using h

/-- C4 (witness): the amended claim evaluated on the probe sequence
`[PENDING, AVAILABLE, ...]` with target `{AVAILABLE}`: the wait returns
the third-argument snapshot of tick 1 and no error. -/
theorem C4_eventual_target_amended_witness :
    Wait ⟨3, 0⟩ ⟨["PENDING"], ["AVAILABLE"], []⟩
        (fun n => if n = 0 then (.nilV, "PENDING", none) else (.strV "ready", "AVAILABLE", none)) =
      .success (.strV "ready") :=
  C4_eventual_target_amended ⟨3, 0⟩ ⟨["PENDING"], ["AVAILABLE"], []⟩
    (fun n => if n = 0 then (.nilV, "PENDING", none) else (.strV "ready", "AVAILABLE", none)) 1
    (by decide)
    (fun m hm => by
      interval_cases m
      exact ⟨rfl, by decide⟩)
    rfl (by decide)

/-- The state a pagination run ends in, regardless of how it ended. -/
def PagesResult.finalState : PagesResult σ → σ
  | .ok s => s
  | .err _ s => s
  | .diverged s => s

/-- A pagination callback over the trace state: it records each
`(page, lastPage)` invocation and continues iff `cont0` says so. -/
def recordingFn (cont0 : DescribeCapacityProvidersOutput → Bool → Bool) :
    List (DescribeCapacityProvidersOutput × Bool) → DescribeCapacityProvidersOutput → Bool →
      List (DescribeCapacityProvidersOutput × Bool) × Bool :=
  fun tr o lp => (tr ++ [(o, lp)], cont0 o lp)

/-- Helper: every invocation the pagination loop records beyond the
starting trace carries a `lastPage` flag equal to the emptiness of the
recorded page's `NextToken`. -/
theorem describeLoop_recorded_lastPage (ctx : Context)
    (conn : Context → DescribeCapacityProvidersInput → Except GoError DescribeCapacityProvidersOutput)
    (cont0 : DescribeCapacityProvidersOutput → Bool → Bool) :
    ∀ (fuel : Nat) (input : DescribeCapacityProvidersInput)
      (tr : List (DescribeCapacityProvidersOutput × Bool)),
      ∀ p ∈ (describeCapacityProvidersLoop ctx conn (recordingFn cont0) fuel input tr).finalState,
        p ∈ tr ∨ p.2 = (StringValue p.1.nextToken == "") := by
  intro fuel
  induction fuel with
  | zero => intro input tr p hp; exact .inl hp
  | succ fuel ih =>
    intro input tr p hp
    rcases hconn : conn ctx input with e | output
    · simp only [describeCapacityProvidersLoop, hconn, PagesResult.finalState] at hp
      exact .inl hp
    · by_cases hstop :
        (!(cont0 output (StringValue output.nextToken == "")) ||
          (StringValue output.nextToken == "")) = true
      · simp only [describeCapacityProvidersLoop, hconn, recordingFn, hstop, if_true,
          PagesResult.finalState] at hp
        rcases List.mem_append.mp hp with hin | hnew
        · exact .inl hin
        · right
          rcases List.mem_singleton.mp hnew with rfl
          rfl
      · simp only [describeCapacityProvidersLoop, hconn, recordingFn,
          hstop, if_false, Bool.false_eq_true] at hp
        rcases ih { nextToken := output.nextToken } (tr ++ [(output, StringValue output.nextToken == "")]) p hp with hin | hgood
        · rcases List.mem_append.mp hin with hin0 | hnew
          · exact .inl hin0
          · right
            rcases List.mem_singleton.mp hnew with rfl
            rfl
        · exact .inr hgood

/-- C8: `DescribeCapacityProvidersPages` returns the very same result as
`DescribeCapacityProvidersPagesWithContext` on `context.Background()`
(so it drives the callback through the same invocations); every
`(page, lastPage)` pair the loop passes to the callback has
`lastPage = true` exactly when the page's `NextToken` is empty; and one
iteration stops — returning nil — when the callback answers false or the
last page is reached, and otherwise continues with the page's
`NextToken` as the next input token. -/
theorem C8_pages_delegates_and_stops :
    (∀ (σ : Type)
       (conn : Context → DescribeCapacityProvidersInput → Except GoError DescribeCapacityProvidersOutput)
       (input : DescribeCapacityProvidersInput)
       (fn : σ → DescribeCapacityProvidersOutput → Bool → σ × Bool) (fuel : Nat) (s : σ),
        DescribeCapacityProvidersPages conn input fn fuel s =
          DescribeCapacityProvidersPagesWithContext .background conn input fn fuel s) ∧
    (∀ (ctx : Context)
       (conn : Context → DescribeCapacityProvidersInput → Except GoError DescribeCapacityProvidersOutput)
       (cont0 : DescribeCapacityProvidersOutput → Bool → Bool)
       (fuel : Nat) (input : DescribeCapacityProvidersInput),
        ∀ p ∈ (DescribeCapacityProvidersPagesWithContext ctx conn input (recordingFn cont0)
                  fuel []).finalState,
          p.2 = (StringValue p.1.nextToken == "")) ∧
    (∀ (σ : Type) (ctx : Context)
       (conn : Context → DescribeCapacityProvidersInput → Except GoError DescribeCapacityProvidersOutput)
       (input : DescribeCapacityProvidersInput)
       (fn : σ → DescribeCapacityProvidersOutput → Bool → σ × Bool) (fuel : Nat) (s : σ)
       (output : DescribeCapacityProvidersOutput),
        conn ctx input = .ok output →
        (((fn s output (StringValue output.nextToken == "")).2 = false ∨
            (StringValue output.nextToken == "") = true) →
          DescribeCapacityProvidersPagesWithContext ctx conn input fn (fuel + 1) s =
            .ok (fn s output (StringValue output.nextToken == "")).1) ∧
        ((fn s output (StringValue output.nextToken == "")).2 = true ∧
            (StringValue output.nextToken == "") = false →
          DescribeCapacityProvidersPagesWithContext ctx conn input fn (fuel + 1) s =
            DescribeCapacityProvidersPagesWithContext ctx conn { nextToken := output.nextToken }
              fn fuel (fn s output (StringValue output.nextToken == "")).1)) := by
  refine ⟨fun _ _ _ _ _ _ => rfl, ?_, ?_⟩
  · intro ctx conn cont0 fuel input p hp
    rcases describeLoop_recorded_lastPage ctx conn cont0 fuel input [] p hp with hin | hgood
    · exact absurd hin (List.not_mem_nil p)
    · exact hgood
  · intro σ ctx conn input fn fuel s output hconn
    constructor
    · intro hstop
      have hb : (!(fn s output (StringValue output.nextToken == "")).2 ||
          (StringValue output.nextToken == "")) = true := by
        rcases hstop with h | h <;> simp [h]
      simp [DescribeCapacityProvidersPagesWithContext, describeCapacityProvidersLoop, hconn, hb]
    · intro hcont
      obtain ⟨h1, h2⟩ := hcont
      rw [h2] at h1
      have hb : (!(fn s output (StringValue output.nextToken == "")).2 ||
          (StringValue output.nextToken == "")) = false := by
        rw [h2]
        simp [h1]
      simp [DescribeCapacityProvidersPagesWithContext, describeCapacityProvidersLoop, hconn, hb]

/-- C8 (witness): on a single-page service (`NextToken` nil) the
delegation is exact and the loop returns nil after one callback call. -/
theorem C8_pages_delegates_and_stops_witness :
    DescribeCapacityProvidersPages (fun _ _ => .ok ⟨["cp1"], none⟩) ⟨none⟩
        (fun (s : Nat) _ _ => (s + 1, true)) 3 0 =
      DescribeCapacityProvidersPagesWithContext .background (fun _ _ => .ok ⟨["cp1"], none⟩)
        ⟨none⟩ (fun (s : Nat) _ _ => (s + 1, true)) 3 0 ∧
    DescribeCapacityProvidersPagesWithContext .background (fun _ _ => .ok ⟨["cp1"], none⟩)
        ⟨none⟩ (fun (s : Nat) _ _ => (s + 1, true)) (2 + 1) 0 = .ok 1 :=
  ⟨C8_pages_delegates_and_stops.1 Nat _ ⟨none⟩ _ 3 0,
   (C8_pages_delegates_and_stops.2.2 Nat .background _ ⟨none⟩ _ 2 0 ⟨["cp1"], none⟩ rfl).1
     (Or.inr (by decide))⟩

/-- C5 (witness): the forwarding evaluated on concrete entities. -/
theorem C5_success_forwards_entity_witness :
    ConnectionState (some ⟨some "available"⟩) none =
      (.connV ⟨some "available"⟩, "available", none) ∧
    GatewayState (some ⟨some "available"⟩) none =
      (.gatewayV ⟨some "available"⟩, "available", none) ∧
    HostedConnectionState (some ⟨some "ordering"⟩) none =
      (.connV ⟨some "ordering"⟩, "ordering", none) ∧
    LagState (some ⟨some "up"⟩) none = (.lagV ⟨some "up"⟩, "up", none) :=
  ⟨C5_success_forwards_entity.1 ⟨some "available"⟩,
   C5_success_forwards_entity.2.1 ⟨some "available"⟩,
   C5_success_forwards_entity.2.2.1 ⟨some "ordering"⟩,
   C5_success_forwards_entity.2.2.2 ⟨some "up"⟩⟩
